import Mathlib

/-!
Verification of the opportunity-scanning and scoring engine of the
omniscient trading platform (`app.py`, class `AbsoluteBestScanner`).

The market-data frame is modelled as a list of rows (close price, volume)
together with a flag recording whether the `Volume` column is present;
numbers are modelled as exact rationals (the source computes with machine
floats; all properties below are stated over exact arithmetic).  The data
engine handed to the scanner is modelled as a function from ticker symbols
to `Except Unit (Option Frame)`: `Except.error` models a raised exception,
`Except.ok none` models a `None` return, and `Except.ok (some f)` a
returned frame.  The scanner itself contains no raise statement and
catches every per-ticker exception, so its embedding is a total function
returning the result list.
-/

namespace Omniscient

/-- One row of the market-data frame: close price and volume. -/
structure Bar where
  close : ℚ
  volume : ℚ
deriving DecidableEq

/-- A market-data frame: ordered rows plus a flag for the presence of the
`Volume` column (the `Close` column is always produced by the data engine). -/
structure Frame where
  bars : List Bar
  hasVolume : Bool
deriving DecidableEq

/-- The `Close` column of a frame. -/
def Frame.closes (data : Frame) : List ℚ := data.bars.map Bar.close

/-- The `Volume` column of a frame. -/
def Frame.volumes (data : Frame) : List ℚ := data.bars.map Bar.volume

/-- Negative positional indexing: `s.iloc[-k]`, the k-th entry from the end
(total, with default 0 for out-of-range access, which no guarded use hits). -/
def iloc (l : List ℚ) (k : Nat) : ℚ := l.getD (l.length - k) 0

/-- Mean of the trailing `k` entries of a series: `s.iloc[-k:].mean()` and
`np.mean(arr[-k:])`. -/
def meanLast (k : Nat) (l : List ℚ) : ℚ :=
  let t := l.drop (l.length - k)
  t.sum / (t.length : ℚ)

/-- `AbsoluteBestScanner._calculate_momentum`. -/
def _calculate_momentum (data : Frame) : ℚ :=
  if data.bars.length < 10 then 50
  else
    let closes := data.closes
    let recent_change :=
      if 5 ≤ data.bars.length then (iloc closes 1 - iloc closes 5) / iloc closes 5 * 100
      else 0
    let momentum := 50 + recent_change * 2
    max 0 (min 100 momentum)

/-- `AbsoluteBestScanner._calculate_volume`. -/
def _calculate_volume (data : Frame) : ℚ :=
  if data.bars.length < 10 ∨ data.hasVolume = false then 50
  else
    let recent_volume := meanLast 5 data.volumes
    let avg_volume :=
      if 20 ≤ data.bars.length then meanLast 20 data.volumes else recent_volume
    if avg_volume = 0 then 50
    else
      let volume_quot := recent_volume / avg_volume
      if 2 < volume_quot then 90
      else if 3/2 < volume_quot then 75
      else if 1 < volume_quot then 60
      else 40

/-- `AbsoluteBestScanner._calculate_trend`. -/
def _calculate_trend (data : Frame) : ℚ :=
  if data.bars.length < 20 then 50
  else
    let prices := data.closes
    let ma_short := meanLast 10 prices
    let ma_long := meanLast 20 prices
    if ma_short < iloc prices 1 ∧ ma_long < ma_short then 85
    else if iloc prices 1 < ma_short ∧ ma_short < ma_long then 15
    else 50

/-- The trade plan produced by `_generate_trade_plan`. -/
structure TradePlan where
  direction : String
  entry : ℚ
  stop_loss : ℚ
  target : ℚ
  risk_reward : ℚ
  timeframe : String
  position_size : String
  confidence : String
deriving DecidableEq

/-- The per-ticker analysis record produced by `_analyze_stock`.  On the
empty-frame branch the source dict carries only `ticker` and `score`; the
remaining fields are modelled with inert defaults and are never read
downstream in that case (an empty-frame analysis scores 0 < 75). -/
structure Analysis where
  ticker : String
  price : ℚ
  price_change : ℚ
  trend : String
  score : ℚ
  momentum_score : ℚ
  volume_score : ℚ
  trend_score : ℚ
  trade_plan : Option TradePlan
deriving DecidableEq

/-- `AbsoluteBestScanner._analyze_stock`. -/
def _analyze_stock (ticker : String) (data : Frame) : Analysis :=
  if data.bars.length = 0 then
    { ticker := ticker, price := 0, price_change := 0, trend := "NEUTRAL", score := 0,
      momentum_score := 0, volume_score := 0, trend_score := 0, trade_plan := none }
  else
    let closes := data.closes
    let current_price := iloc closes 1
    let momentum_score := _calculate_momentum data
    let volume_score := _calculate_volume data
    let trend_score := _calculate_trend data
    let total_score := momentum_score * (4/10) + volume_score * (3/10) + trend_score * (3/10)
    let price_change :=
      if 2 ≤ data.bars.length then (iloc closes 1 - iloc closes 2) / iloc closes 2 * 100
      else 0
    let trend :=
      if 2 ≤ data.bars.length then (if 0 < price_change then "BULLISH" else "BEARISH")
      else "NEUTRAL"
    { ticker := ticker, price := current_price, price_change := price_change, trend := trend,
      score := total_score, momentum_score := momentum_score, volume_score := volume_score,
      trend_score := trend_score, trade_plan := none }

/-- Round half to even at integer precision: the idealisation of Python
`round` over exact rationals. -/
def pyround (q : ℚ) : ℤ :=
  let n := ⌊q⌋
  let f := q - n
  if f < 1/2 then n
  else if 1/2 < f then n + 1
  else if n % 2 = 0 then n else n + 1

/-- Python `round(q, 2)`: round half to even at two decimal places. -/
def round2 (q : ℚ) : ℚ := (pyround (q * 100) : ℚ) / 100

/-- `AbsoluteBestScanner._generate_trade_plan`. -/
def _generate_trade_plan (analysis : Analysis) : TradePlan :=
  let current_price := analysis.price
  let score := analysis.score
  let trend := analysis.trend
  let direction := if trend = "BULLISH" then "LONG" else "SHORT"
  let entry := current_price
  let stop_loss :=
    if trend = "BULLISH" then current_price * (93/100) else current_price * (107/100)
  let target :=
    if trend = "BULLISH" then current_price * (121/100) else current_price * (79/100)
  let risk := |entry - stop_loss|
  let reward := |target - entry|
  let risk_reward := if 0 < risk then reward / risk else 0
  let confidence := if 85 ≤ score then "VERY HIGH" else if 75 ≤ score then "HIGH" else "MODERATE"
  let position := if 85 ≤ score then "10-15%" else if 75 ≤ score then "7-10%" else "5-7%"
  { direction := direction, entry := round2 entry, stop_loss := round2 stop_loss,
    target := round2 target, risk_reward := round2 risk_reward, timeframe := "3-10 days",
    position_size := position, confidence := confidence }

/-- The comparison used by `results.sort(key=lambda x: x['score'], reverse=True)`:
a stable sort that puts larger scores first. -/
def scoreLe (a b : Analysis) : Bool := decide (b.score ≤ a.score)

/-- Python list slicing `l[:n]` for an arbitrary integer bound `n`. -/
def pySliceTo {α : Type} (n : ℤ) (l : List α) : List α :=
  if 0 ≤ n then l.take n.toNat else l.take (l.length - (-n).toNat)

/-- The body of the per-ticker loop of `scan_best_opportunities`: fetch,
skip on exception / `None` / empty frame, analyse, keep only scores ≥ 75,
attach a trade plan.  Produces the (zero- or one-element) contribution of
one ticker to the result list. -/
def processTicker (get_market_data : String → Except Unit (Option Frame))
    (ticker : String) : List Analysis :=
  match get_market_data ticker with
  | .error _ => []
  | .ok none => []
  | .ok (some data) =>
      if data.bars.length ≠ 0 then
        let analysis := _analyze_stock ticker data
        if 75 ≤ analysis.score then
          [{ analysis with trade_plan := some (_generate_trade_plan analysis) }]
        else []
      else []

/-- The accumulated `results` list of the scan loop, in universe order. -/
def collectResults (get_market_data : String → Except Unit (Option Frame))
    (tickers : List String) : List Analysis :=
  (tickers.map (processTicker get_market_data)).flatten

/-- `AbsoluteBestScanner.scan_best_opportunities`: loop over the first 15
priority tickers, then stable-sort by score descending and slice to
`max_results`. -/
def scan_best_opportunities (get_market_data : String → Except Unit (Option Frame))
    (priority_tickers : List String) (max_results : ℤ) : List Analysis :=
  let results := collectResults get_market_data (priority_tickers.take 15)
  pySliceTo max_results (results.mergeSort scoreLe)

/-! Concrete inputs used by witnesses and counterexamples. -/

/-- A 20-bar frame that qualifies: momentum 100, volume 90, trend 85, combined 92.5. -/
def goodBars : List Bar :=
  [⟨16, 1⟩, ⟨16, 1⟩, ⟨16, 1⟩, ⟨16, 1⟩, ⟨16, 1⟩,
   ⟨16, 1⟩, ⟨16, 1⟩, ⟨16, 1⟩, ⟨16, 1⟩, ⟨16, 1⟩,
   ⟨16, 1⟩, ⟨16, 1⟩, ⟨16, 1⟩, ⟨16, 1⟩, ⟨16, 1⟩,
   ⟨16, 100⟩, ⟨20, 100⟩, ⟨20, 100⟩, ⟨20, 100⟩, ⟨20, 100⟩]

/-- The qualifying frame, with a volume column. -/
def goodFrame : Frame := ⟨goodBars, true⟩

/-- A 3-bar frame: too short for every sub-score. -/
def shortFrame : Frame := ⟨[⟨10, 5⟩, ⟨11, 5⟩, ⟨12, 5⟩], true⟩

/-- A data engine for which every ticker yields the qualifying frame. -/
def goodEngine : String → Except Unit (Option Frame) := fun _ => .ok (some goodFrame)

/-- A bullish analysis at price 1.01, where two-decimal rounding moves the
stop level: 1.01 × 0.93 = 0.9393 but the stored stop_loss is 0.94. -/
def bullishPenny : Analysis :=
  { ticker := "X", price := 101/100, price_change := 1, trend := "BULLISH", score := 90,
    momentum_score := 90, volume_score := 90, trend_score := 90, trade_plan := none }

/-- A bullish analysis at price 100 (the spec's worked example). -/
def bullish100 : Analysis :=
  { ticker := "X", price := 100, price_change := 1, trend := "BULLISH", score := 90,
    momentum_score := 90, volume_score := 90, trend_score := 90, trade_plan := none }

/-- A bearish analysis at price 100 (the spec's worked example). -/
def bearish100 : Analysis :=
  { ticker := "X", price := 100, price_change := -1, trend := "BEARISH", score := 90,
    momentum_score := 90, volume_score := 90, trend_score := 90, trade_plan := none }

/-- The universe of the C2 witness scan. -/
def fiveTickers : List String := ["A", "B", "C", "D", "E"]

/-- A per-ticker fetch is unusable when it raises, returns `None`, or
returns an empty frame. -/
def fetchUnavailable (g : String → Except Unit (Option Frame)) (t : String) : Prop :=
  (∃ e, g t = .error e) ∨ g t = .ok none ∨ ∃ f, g t = .ok (some f) ∧ f.bars.length = 0

/-- A data engine whose fetch raises for ticker B and yields the qualifying
frame for every other ticker. -/
def engineWithFailure : String → Except Unit (Option Frame) :=
  fun t => if t = "B" then .error () else .ok (some goodFrame)

/-! Helper lemmas. -/

theorem scoreLe_trans (a b c : Analysis) (hab : scoreLe a b) (hbc : scoreLe b c) :
    scoreLe a c := by
  simp only [scoreLe, decide_eq_true_eq] at *
  exact le_trans hbc hab

theorem scoreLe_total (a b : Analysis) : scoreLe a b || scoreLe b a := by
  simp only [scoreLe, Bool.or_eq_true, decide_eq_true_eq]
  exact le_total b.score a.score

theorem processTicker_score (g : String → Except Unit (Option Frame)) (t : String) :
    ∀ a ∈ processTicker g t, 75 ≤ a.score := by
  intro a ha
  unfold processTicker at ha
  split at ha
  · simp at ha
  · simp at ha
  · split at ha
    · dsimp only at ha
      split at ha
      · rename_i hsc
        simp at ha
        subst ha
        exact hsc
      · simp at ha
    · simp at ha

theorem collectResults_score (g : String → Except Unit (Option Frame)) (ts : List String) :
    ∀ a ∈ collectResults g ts, 75 ≤ a.score := by
  intro a ha
  simp only [collectResults, List.mem_flatten, List.mem_map] at ha
  obtain ⟨l, ⟨t, _, rfl⟩, hal⟩ := ha
  exact processTicker_score g t a hal

/-! ### C1 -/

/-- C1, counterexample.  The claim says a scan over an empty candidate
universe raises an invalid-argument failure and does not return an empty
result.  The source performs no argument validation: `scan_best_opportunities`
contains no raise statement, so its embedding is a total function, and on an
empty universe it returns the empty result list normally. -/
theorem scan_empty_universe_returns_empty_result :
    scan_best_opportunities (fun _ => .ok none) [] 5 = [] := by
  simp [scan_best_opportunities, collectResults, pySliceTo]

/-- C1, amended.  The scan never signals an invalid-argument usage error:
for every data engine it returns normally, an empty universe yields the
empty result list, and `max_results = 0` likewise yields the empty result
list (for negative `max_results` the Python slice drops entries from the
end; no input is rejected). -/
theorem scan_no_invalid_argument_failure :
    (∀ (g : String → Except Unit (Option Frame)) (mr : ℤ),
        scan_best_opportunities g [] mr = []) ∧
    (∀ (g : String → Except Unit (Option Frame)) (p : List String),
        scan_best_opportunities g p 0 = []) := by
  constructor
  · intro g mr
    simp [scan_best_opportunities, collectResults, pySliceTo]
  · intro g p
    simp [scan_best_opportunities, pySliceTo]

/-! ### C4 -/

/-- C4.  With fewer than 10 bars the momentum score is the neutral 50; with
at least 10 bars it is `50 + 2 × percent_change` clamped to [0, 100], where
`percent_change` is the percent change between the latest close and the
fifth-from-last close. -/
theorem momentum_score_spec (data : Frame) :
    (data.bars.length < 10 → _calculate_momentum data = 50) ∧
    (10 ≤ data.bars.length →
      _calculate_momentum data
        = max 0 (min 100 (50 +
            2 * ((iloc data.closes 1 - iloc data.closes 5) / iloc data.closes 5 * 100)))) := by
  constructor
  · intro h
    simp [_calculate_momentum, h]
  · intro h
    have h10 : ¬ data.bars.length < 10 := by omega
    have h5 : 5 ≤ data.bars.length := by omega
    simp only [_calculate_momentum, h10, if_false, h5, if_true, if_pos h5]
    ring_nf

/-- C4, witness: evaluated at a 3-bar frame (neutral 50) and at a 20-bar
frame with a 25% five-bar move (clamped to 100). -/
theorem momentum_score_spec_witness :
    shortFrame.bars.length < 10 ∧ _calculate_momentum shortFrame = 50 ∧
    10 ≤ goodFrame.bars.length ∧ _calculate_momentum goodFrame = 100 := by
  refine ⟨by norm_num [shortFrame], ?_, by norm_num [goodFrame, goodBars], ?_⟩
  · exact (momentum_score_spec shortFrame).1 (by norm_num [shortFrame])
  · rw [(momentum_score_spec goodFrame).2 (by norm_num [goodFrame, goodBars])]
    norm_num [goodFrame, goodBars, Frame.closes, iloc, List.getD]

/-! ### C6 -/

/-- C6.  With fewer than 20 bars the trend score is the neutral 50; with at
least 20 bars it is 85 when latest close > MA10 > MA20, 15 when latest
close < MA10 < MA20, and 50 in every other ordering of the three values. -/
theorem trend_score_spec (data : Frame) :
    (data.bars.length < 20 → _calculate_trend data = 50) ∧
    (20 ≤ data.bars.length →
      (meanLast 10 data.closes < iloc data.closes 1 →
        meanLast 20 data.closes < meanLast 10 data.closes → _calculate_trend data = 85) ∧
      (iloc data.closes 1 < meanLast 10 data.closes →
        meanLast 10 data.closes < meanLast 20 data.closes → _calculate_trend data = 15) ∧
      (¬(meanLast 10 data.closes < iloc data.closes 1 ∧
          meanLast 20 data.closes < meanLast 10 data.closes) →
       ¬(iloc data.closes 1 < meanLast 10 data.closes ∧
          meanLast 10 data.closes < meanLast 20 data.closes) →
        _calculate_trend data = 50)) := by
  constructor
  · intro h
    simp [_calculate_trend, h]
  · intro h
    have h20 : ¬ data.bars.length < 20 := by omega
    refine ⟨fun h1 h2 => ?_, fun h1 h2 => ?_, fun h1 h2 => ?_⟩
    · simp [_calculate_trend, h20, h1, h2]
    · have hne : ¬(meanLast 10 data.closes < iloc data.closes 1 ∧
          meanLast 20 data.closes < meanLast 10 data.closes) := by
        rintro ⟨ha, -⟩
        exact absurd h1 (not_lt.mpr ha.le)
      simp [_calculate_trend, h20, hne, h1, h2]
    · simp [_calculate_trend, h20, h1, h2]

/-- C6, witness: evaluated at a 3-bar frame (neutral 50) and at a 20-bar
frame in a strong uptrend (close 20 > MA10 17.6 > MA20 16.8, score 85). -/
theorem trend_score_spec_witness :
    shortFrame.bars.length < 20 ∧ _calculate_trend shortFrame = 50 ∧
    _calculate_trend goodFrame = 85 := by
  refine ⟨by norm_num [shortFrame], ?_, ?_⟩
  · exact (trend_score_spec shortFrame).1 (by norm_num [shortFrame])
  · refine ((trend_score_spec goodFrame).2 (by norm_num [goodFrame, goodBars])).1 ?_ ?_ <;>
      norm_num [goodFrame, goodBars, Frame.closes, meanLast, iloc, List.getD, List.drop]

/-! ### C5 -/

/-- C5.  With fewer than 10 bars or no volume column the volume score is the
neutral 50; otherwise, with `avg` the trailing-20 mean volume (or the
trailing-5 mean itself when fewer than 20 bars exist), a zero `avg` yields
the neutral 50, a nonzero `avg` yields 90/75/60/40 by the thresholds on the
quotient (trailing-5 mean) / `avg`, and with fewer than 20 bars and a
nonzero trailing-5 mean that quotient is 1 (hence the score is 40). -/
theorem volume_score_spec (data : Frame) :
    (data.bars.length < 10 ∨ data.hasVolume = false → _calculate_volume data = 50) ∧
    (10 ≤ data.bars.length → data.hasVolume = true →
      ((if 20 ≤ data.bars.length then meanLast 20 data.volumes else meanLast 5 data.volumes)
          = 0 → _calculate_volume data = 50) ∧
      ((if 20 ≤ data.bars.length then meanLast 20 data.volumes else meanLast 5 data.volumes)
          ≠ 0 → _calculate_volume data =
        (if 2 < meanLast 5 data.volumes /
              (if 20 ≤ data.bars.length then meanLast 20 data.volumes
               else meanLast 5 data.volumes) then 90
         else if 3/2 < meanLast 5 data.volumes /
              (if 20 ≤ data.bars.length then meanLast 20 data.volumes
               else meanLast 5 data.volumes) then 75
         else if 1 < meanLast 5 data.volumes /
              (if 20 ≤ data.bars.length then meanLast 20 data.volumes
               else meanLast 5 data.volumes) then 60
         else 40)) ∧
      (data.bars.length < 20 → meanLast 5 data.volumes ≠ 0 →
        meanLast 5 data.volumes /
          (if 20 ≤ data.bars.length then meanLast 20 data.volumes
           else meanLast 5 data.volumes) = 1)) := by
  constructor
  · intro h
    simp only [_calculate_volume]
    rw [if_pos h]
  · intro h10 hv
    have hcond : ¬(data.bars.length < 10 ∨ data.hasVolume = false) := by
      push_neg
      exact ⟨by omega, by simp [hv]⟩
    refine ⟨fun h0 => ?_, fun hne => ?_, fun h20 hr => ?_⟩
    · simp [_calculate_volume, hcond, h0]
    · simp [_calculate_volume, hcond, hne]
    · have : ¬ 20 ≤ data.bars.length := by omega
      simp [this, div_self hr]

/-- C5, witness: a frame without a volume column scores 50, and the
qualifying 20-bar frame (quotient 400/103 > 2) scores 90. -/
theorem volume_score_spec_witness :
    _calculate_volume (Frame.mk goodBars false) = 50 ∧ _calculate_volume goodFrame = 90 := by
  constructor
  · exact (volume_score_spec (Frame.mk goodBars false)).1 (Or.inr rfl)
  · have h := ((volume_score_spec goodFrame).2 (by norm_num [goodFrame, goodBars])
      (by norm_num [goodFrame, goodBars])).2.1
    rw [h (by norm_num [goodFrame, goodBars, Frame.volumes, meanLast, List.drop])]
    norm_num [goodFrame, goodBars, Frame.volumes, meanLast, List.drop]

/-! ### C7 -/

theorem momentum_bounds (data : Frame) :
    0 ≤ _calculate_momentum data ∧ _calculate_momentum data ≤ 100 := by
  unfold _calculate_momentum
  split
  · norm_num
  · dsimp only
    exact ⟨le_max_left 0 _, max_le (by norm_num) (min_le_left _ _)⟩

theorem volume_bounds (data : Frame) :
    0 ≤ _calculate_volume data ∧ _calculate_volume data ≤ 100 := by
  unfold _calculate_volume
  dsimp only
  constructor <;> split_ifs <;> norm_num

theorem trend_bounds (data : Frame) :
    0 ≤ _calculate_trend data ∧ _calculate_trend data ≤ 100 := by
  unfold _calculate_trend
  dsimp only
  constructor <;> split_ifs <;> norm_num

/-- C7.  `_analyze_stock` is a total function; an empty bar sequence yields
combined score 0, a non-empty one yields
`0.4 × momentum + 0.3 × volume + 0.3 × trend`, and the combined score always
lies within [0, 100]. -/
theorem combined_score_spec (ticker : String) (data : Frame) :
    (data.bars.length = 0 → (_analyze_stock ticker data).score = 0) ∧
    (data.bars.length ≠ 0 →
      (_analyze_stock ticker data).score
        = (4/10) * _calculate_momentum data + (3/10) * _calculate_volume data
            + (3/10) * _calculate_trend data) ∧
    (0 ≤ (_analyze_stock ticker data).score ∧ (_analyze_stock ticker data).score ≤ 100) := by
  have hscore : data.bars.length ≠ 0 →
      (_analyze_stock ticker data).score
        = (4/10) * _calculate_momentum data + (3/10) * _calculate_volume data
            + (3/10) * _calculate_trend data := by
    intro h0
    simp only [_analyze_stock, h0, if_false, ite_false]
    ring_nf
  refine ⟨fun h0 => by simp [_analyze_stock, h0], hscore, ?_⟩
  by_cases h0 : data.bars.length = 0
  · simp [_analyze_stock, h0]
  · obtain ⟨hm0, hm1⟩ := momentum_bounds data
    obtain ⟨hv0, hv1⟩ := volume_bounds data
    obtain ⟨ht0, ht1⟩ := trend_bounds data
    rw [hscore h0]
    constructor <;> linarith

/-- C7, witness: an empty frame yields combined score 0, and the qualifying
20-bar frame satisfies the weighted-sum equation. -/
theorem combined_score_spec_witness :
    (Frame.mk [] true).bars.length = 0 ∧ (_analyze_stock "E" (Frame.mk [] true)).score = 0 ∧
    goodFrame.bars.length ≠ 0 ∧
    (_analyze_stock "A" goodFrame).score
      = (4/10) * _calculate_momentum goodFrame + (3/10) * _calculate_volume goodFrame
          + (3/10) * _calculate_trend goodFrame := by
  refine ⟨rfl, (combined_score_spec "E" (Frame.mk [] true)).1 rfl,
    by norm_num [goodFrame, goodBars], ?_⟩
  exact (combined_score_spec "A" goodFrame).2.1 (by norm_num [goodFrame, goodBars])

/-! ### C8 -/

/-- C8, counterexample.  The claim states `stop = price × 0.93` for a LONG
plan, but the source stores every price level rounded to two decimals
(`round(stop_loss, 2)`): at price 1.01 the stored stop_loss is 0.94, not
1.01 × 0.93 = 0.9393. -/
theorem trade_plan_exact_levels_counterexample :
    (_generate_trade_plan bullishPenny).stop_loss ≠ bullishPenny.price * (93/100) := by
  norm_num [_generate_trade_plan, bullishPenny, round2, pyround]

/-- C8, amended.  Direction is LONG exactly when the trend label is BULLISH
and SHORT otherwise; entry, stop and target are the current price and its
fixed percentage offsets (LONG: ×0.93 / ×1.21, SHORT: ×1.07 / ×0.79), each
rounded to two decimals when stored; risk-reward is reward/risk computed
from the unrounded levels (0 when risk is 0), rounded to two decimals.  At
price 100 the two worked examples hold exactly as claimed: BULLISH gives
entry 100, stop 93, target 121, ratio 3; BEARISH gives entry 100, stop 107,
target 79, ratio 3. -/
theorem trade_plan_spec (a : Analysis) :
    ((_generate_trade_plan a).direction = if a.trend = "BULLISH" then "LONG" else "SHORT") ∧
    (_generate_trade_plan a).entry = round2 a.price ∧
    ((_generate_trade_plan a).stop_loss
      = round2 (a.price * (if a.trend = "BULLISH" then 93/100 else 107/100))) ∧
    ((_generate_trade_plan a).target
      = round2 (a.price * (if a.trend = "BULLISH" then 121/100 else 79/100))) ∧
    ((_generate_trade_plan a).risk_reward
      = round2 (if 0 < |a.price - a.price * (if a.trend = "BULLISH" then 93/100 else 107/100)|
          then |a.price * (if a.trend = "BULLISH" then 121/100 else 79/100) - a.price|
            / |a.price - a.price * (if a.trend = "BULLISH" then 93/100 else 107/100)|
          else 0)) ∧
    _generate_trade_plan bullish100 =
      { direction := "LONG", entry := 100, stop_loss := 93, target := 121, risk_reward := 3,
        timeframe := "3-10 days", position_size := "10-15%", confidence := "VERY HIGH" } ∧
    _generate_trade_plan bearish100 =
      { direction := "SHORT", entry := 100, stop_loss := 107, target := 79, risk_reward := 3,
        timeframe := "3-10 days", position_size := "10-15%", confidence := "VERY HIGH" } := by
  refine ⟨?_, ?_, ?_, ?_, ?_, ?_, ?_⟩
  · by_cases h : a.trend = "BULLISH" <;> simp [_generate_trade_plan, h]
  · simp [_generate_trade_plan]
  · by_cases h : a.trend = "BULLISH" <;> simp [_generate_trade_plan, h]
  · by_cases h : a.trend = "BULLISH" <;> simp [_generate_trade_plan, h]
  · by_cases h : a.trend = "BULLISH" <;> simp [_generate_trade_plan, h]
  · have h7 : |(100 : ℚ) - 100 * (93/100)| = 7 := by
      rw [abs_of_pos] <;> norm_num
    have h21 : |(100 : ℚ) * (121/100) - 100| = 21 := by
      rw [abs_of_pos] <;> norm_num
    simp only [_generate_trade_plan, bullish100, ite_true, ite_false, String.reduceEq]
    rw [h7, h21]
    norm_num [round2, pyround, TradePlan.mk.injEq]
  · have h7 : |(100 : ℚ) - 100 * (107/100)| = 7 := by
      rw [abs_of_neg] <;> norm_num
    have h21 : |(100 : ℚ) * (79/100) - 100| = 21 := by
      rw [abs_of_neg] <;> norm_num
    simp only [_generate_trade_plan, bearish100, ite_true, ite_false, String.reduceEq]
    rw [h7, h21]
    norm_num [round2, pyround, TradePlan.mk.injEq]

/-! ### C9 -/

/-- C9.  Confidence and position-size band are a step function of the
combined score: ≥ 85 gives VERY HIGH / 10-15%; in [75, 85) gives
HIGH / 7-10%; below 75 gives MODERATE / 5-7%. -/
theorem confidence_position_bands (a : Analysis) :
    (85 ≤ a.score → (_generate_trade_plan a).confidence = "VERY HIGH" ∧
        (_generate_trade_plan a).position_size = "10-15%") ∧
    (75 ≤ a.score → a.score < 85 →
        (_generate_trade_plan a).confidence = "HIGH" ∧
        (_generate_trade_plan a).position_size = "7-10%") ∧
    (a.score < 75 → (_generate_trade_plan a).confidence = "MODERATE" ∧
        (_generate_trade_plan a).position_size = "5-7%") := by
  refine ⟨fun h => ?_, fun h75 h85 => ?_, fun h75 => ?_⟩
  · simp [_generate_trade_plan, h]
  · have h : ¬ 85 ≤ a.score := not_le.mpr h85
    simp [_generate_trade_plan, h, h75]
  · have h85 : ¬ 85 ≤ a.score := by
      intro hc
      linarith
    have h75n : ¬ 75 ≤ a.score := not_le.mpr h75
    simp [_generate_trade_plan, h85, h75n]

/-- C9, witness: the three bands evaluated at scores 90, 80 and 10. -/
theorem confidence_position_bands_witness :
    (_generate_trade_plan { bullishPenny with score := 90 }).confidence = "VERY HIGH" ∧
    (_generate_trade_plan { bullishPenny with score := 80 }).confidence = "HIGH" ∧
    (_generate_trade_plan { bullishPenny with score := 10 }).confidence = "MODERATE" := by
  refine ⟨((confidence_position_bands _).1 (by norm_num [bullishPenny])).1,
    ((confidence_position_bands _).2.1 (by norm_num [bullishPenny])
      (by norm_num [bullishPenny])).1,
    ((confidence_position_bands _).2.2 (by norm_num [bullishPenny])).1⟩

/-! ### C10 -/

theorem round2_three : round2 3 = 3 := by
  norm_num [round2, pyround]

/-- C10.  For every analysis with strictly positive price, and for both the
LONG and the SHORT branch, the stored risk-reward ratio is exactly 3 under
exact arithmetic: risk is 7% and reward 21% of price, so the guarded
risk = 0 branch is unreachable and the ratio is independent of price,
score and direction. -/
theorem risk_reward_three (a : Analysis) (h : 0 < a.price) :
    (_generate_trade_plan a).risk_reward = 3 := by
  by_cases ht : a.trend = "BULLISH"
  · have e1 : |a.price - a.price * (93/100)| = a.price * (7/100) := by
      rw [show a.price - a.price * (93/100) = a.price * (7/100) by ring]
      exact abs_of_pos (by positivity)
    have e2 : |a.price * (121/100) - a.price| = a.price * (21/100) := by
      rw [show a.price * (121/100) - a.price = a.price * (21/100) by ring]
      exact abs_of_pos (by positivity)
    have e3 : a.price * (21/100) / (a.price * (7/100)) = 3 := by
      rw [div_eq_iff (by positivity)]
      ring
    have hr : (0 : ℚ) < a.price * (7/100) := by positivity
    simp only [_generate_trade_plan, ht, if_true, if_pos, e1, e2, if_pos hr, e3, round2_three]
  · have e1 : |a.price - a.price * (107/100)| = a.price * (7/100) := by
      rw [show a.price - a.price * (107/100) = -(a.price * (7/100)) by ring, abs_neg]
      exact abs_of_pos (by positivity)
    have e2 : |a.price * (79/100) - a.price| = a.price * (21/100) := by
      rw [show a.price * (79/100) - a.price = -(a.price * (21/100)) by ring, abs_neg]
      exact abs_of_pos (by positivity)
    have e3 : a.price * (21/100) / (a.price * (7/100)) = 3 := by
      rw [div_eq_iff (by positivity)]
      ring
    have hr : (0 : ℚ) < a.price * (7/100) := by positivity
    simp only [_generate_trade_plan, ht, if_false, ite_false, e1, e2, if_pos hr, e3, round2_three]

/-- C10, witness: a SHORT plan at price 5 has risk-reward exactly 3. -/
theorem risk_reward_three_witness :
    0 < (bearish100 : Analysis).price ∧
    (_generate_trade_plan { bearish100 with price := 5 }).risk_reward = 3 := by
  exact ⟨by norm_num [bearish100],
    risk_reward_three { bearish100 with price := 5 } (by norm_num [bearish100])⟩

/-! ### C2 -/

/-- For non-negative `max_results` the scan is a take of the sorted list. -/
theorem scan_eq_take (g : String → Except Unit (Option Frame)) (p : List String) (mr : ℤ)
    (h : 0 ≤ mr) :
    scan_best_opportunities g p mr
      = ((collectResults g (p.take 15)).mergeSort scoreLe).take mr.toNat := by
  simp [scan_best_opportunities, pySliceTo, h]

/-- C2.  For positive `max_results` the scan result contains only analyses
with combined score ≥ 75, is pairwise descending by combined score, has
length `min max_results (number of qualifying analyses)`, equals the
truncation of the stable descending sort of the qualifying analyses in
universe encounter order, and the sort keeps equal-score pairs in their
encounter order. -/
theorem scan_result_filter_sort_truncate (g : String → Except Unit (Option Frame))
    (p : List String) (mr : ℤ) (h : 0 < mr) :
    (∀ a ∈ scan_best_opportunities g p mr, 75 ≤ a.score) ∧
    (scan_best_opportunities g p mr).Pairwise (fun a b => b.score ≤ a.score) ∧
    (scan_best_opportunities g p mr).length
      = min mr.toNat (collectResults g (p.take 15)).length ∧
    scan_best_opportunities g p mr
      = ((collectResults g (p.take 15)).mergeSort scoreLe).take mr.toNat ∧
    (∀ a b : Analysis, a.score = b.score →
      List.Sublist [a, b] (collectResults g (p.take 15)) →
      List.Sublist [a, b] ((collectResults g (p.take 15)).mergeSort scoreLe)) := by
  have hscan := scan_eq_take g p mr h.le
  refine ⟨?_, ?_, ?_, hscan, ?_⟩
  · intro a ha
    rw [hscan] at ha
    have ha2 : a ∈ (collectResults g (p.take 15)).mergeSort scoreLe :=
      List.mem_of_mem_take ha
    rw [List.mem_mergeSort] at ha2
    exact collectResults_score g _ a ha2
  · rw [hscan]
    have hsorted := List.sorted_mergeSort scoreLe_trans scoreLe_total
      (collectResults g (p.take 15))
    have hsorted2 : ((collectResults g (p.take 15)).mergeSort scoreLe).Pairwise
        (fun a b => b.score ≤ a.score) := by
      refine hsorted.imp ?_
      intro a b hab
      simpa [scoreLe] using hab
    exact hsorted2.sublist (List.take_sublist _ _)
  · rw [hscan, List.length_take, List.length_mergeSort]
  · intro a b hs hsub
    exact List.pair_sublist_mergeSort scoreLe_trans scoreLe_total
      (by simp [scoreLe, hs]) hsub

/-- Combined score of the qualifying 20-bar frame, shared by the witnesses:
0.4 × 100 + 0.3 × 90 + 0.3 × 85 = 92.5. -/
theorem goodFrame_score (t : String) : (_analyze_stock t goodFrame).score = 185/2 := by
  norm_num [_analyze_stock, _calculate_momentum, _calculate_volume, _calculate_trend,
    goodFrame, goodBars, Frame.closes, Frame.volumes, meanLast, iloc, List.drop, List.getD]

/-- Any ticker whose fetch yields the qualifying frame contributes exactly
one analysis, labelled by that ticker. -/
theorem processTicker_goodFrame (g : String → Except Unit (Option Frame)) (t : String)
    (hgt : g t = .ok (some goodFrame)) :
    (processTicker g t).map Analysis.ticker = [t] ∧ (processTicker g t).length = 1 := by
  have hscore := goodFrame_score t
  have hticker : (_analyze_stock t goodFrame).ticker = t := by
    unfold _analyze_stock
    split <;> rfl
  have h75 : 75 ≤ (_analyze_stock t goodFrame).score := by
    rw [hscore]
    norm_num
  have hne : goodFrame.bars.length ≠ 0 := by norm_num [goodFrame, goodBars]
  unfold processTicker
  rw [hgt]
  dsimp only
  rw [if_pos hne, if_pos h75]
  simp [hticker]

/-- C2, witness: with the engine that qualifies every ticker, a universe of
5 tickers and `max_results = 2`, the result has length exactly 2. -/
theorem scan_result_filter_sort_truncate_witness :
    0 < (2 : ℤ) ∧ (scan_best_opportunities goodEngine fiveTickers 2).length = 2 := by
  refine ⟨by norm_num, ?_⟩
  rw [(scan_result_filter_sort_truncate goodEngine fiveTickers 2 (by norm_num)).2.2.1]
  have hpt : ∀ t : String, (processTicker goodEngine t).length = 1 := fun t =>
    (processTicker_goodFrame goodEngine t rfl).2
  have hlen : (collectResults goodEngine (fiveTickers.take 15)).length = 5 := by
    simp [collectResults, fiveTickers, hpt]
  rw [hlen]
  simp [Int.toNat]

/-! ### C3 -/

/-- A ticker with an unusable fetch contributes nothing to the results. -/
theorem processTicker_unavailable (g : String → Except Unit (Option Frame)) (t : String)
    (h : fetchUnavailable g t) : processTicker g t = [] := by
  unfold processTicker
  rcases h with ⟨e, he⟩ | he | ⟨f, he, hf⟩ <;> rw [he]
  simp [hf]

/-- C3.  A ticker whose fetch raises or yields empty (or `None`) data is
skipped: the accumulated result list over any universe containing it equals
the one over the universe with it removed (so every other qualifying
ticker's analysis is kept and no per-ticker failure aborts the scan), the
scan over a universe of at most 15 tickers containing it equals the scan
without it, and the universe considered is capped to its first 15 entries. -/
theorem scan_skips_unavailable_tickers (g : String → Except Unit (Option Frame))
    (bad : String) (h : fetchUnavailable g bad) :
    (∀ u1 u2 : List String,
        collectResults g (u1 ++ bad :: u2) = collectResults g (u1 ++ u2)) ∧
    (∀ (u1 u2 : List String) (mr : ℤ), (u1 ++ bad :: u2).length ≤ 15 →
        scan_best_opportunities g (u1 ++ bad :: u2) mr
          = scan_best_opportunities g (u1 ++ u2) mr) ∧
    (∀ (p : List String) (mr : ℤ),
        scan_best_opportunities g p mr = scan_best_opportunities g (p.take 15) mr) := by
  have hbad := processTicker_unavailable g bad h
  have hcoll : ∀ u1 u2 : List String,
      collectResults g (u1 ++ bad :: u2) = collectResults g (u1 ++ u2) := by
    intro u1 u2
    simp [collectResults, hbad]
  refine ⟨hcoll, ?_, ?_⟩
  · intro u1 u2 mr hle
    have h1 : (u1 ++ bad :: u2).take 15 = u1 ++ bad :: u2 := List.take_of_length_le hle
    have h2 : (u1 ++ u2).take 15 = u1 ++ u2 := by
      apply List.take_of_length_le
      simp only [List.length_append, List.length_cons] at hle ⊢
      omega
    simp only [scan_best_opportunities, h1, h2, hcoll]
  · intro p mr
    simp only [scan_best_opportunities, List.take_take, min_self]

/-- C3, witness: with a universe of 3 tickers where the fetch of B raises,
the scan equals the scan without B, and the accumulated results still carry
the analyses of the other two tickers. -/
theorem scan_skips_unavailable_tickers_witness :
    fetchUnavailable engineWithFailure "B" ∧
    scan_best_opportunities engineWithFailure ["A", "B", "C"] 5
      = scan_best_opportunities engineWithFailure ["A", "C"] 5 ∧
    (collectResults engineWithFailure ["A", "B", "C"]).map Analysis.ticker = ["A", "C"] := by
  have hfu : fetchUnavailable engineWithFailure "B" :=
    Or.inl ⟨(), by simp [engineWithFailure]⟩
  have hA := (processTicker_goodFrame engineWithFailure "A" (by simp [engineWithFailure])).1
  have hC := (processTicker_goodFrame engineWithFailure "C" (by simp [engineWithFailure])).1
  have hB := processTicker_unavailable engineWithFailure "B" hfu
  refine ⟨hfu, ?_, ?_⟩
  · have heq := (scan_skips_unavailable_tickers engineWithFailure "B" hfu).2.1
      ["A"] ["C"] 5 (by simp)
    simpa using heq
  · simp [collectResults, hA, hB, hC]

end Omniscient
